import Mathlib

/-!
Verification of the oscope-scpi protocol core (SCPI session layer,
capability-model resolution and waveform decode pipeline) against its
natural-language specification.  The definitions below are a shallow
embedding of the Python sources `scpi.py`, `oscilloscope.py`, `dso.py`,
`mxr.py`, `exr.py` and `keysight.py`: pure functions model the pure
computations, instrument I/O is modelled by explicit response sequences,
float arithmetic is modelled over `ℚ`, and Python exceptions are modelled
with `Option`/sum-like result types.
-/

namespace OscopeSpec

/-! ## Python string primitives used by the sources

All helpers recurse structurally over the character list of the string so
that concrete instances evaluate inside the kernel (`decide`). -/

/-- Split a character list at every occurrence of `c`; like Python
`str.split(sep)` this always yields at least one (possibly empty) group. -/
def splitChars (c : Char) : List Char → List (List Char)
  | [] => [[]]
  | x :: xs =>
    if x = c then
      [] :: splitChars c xs
    else
      match splitChars c xs with
      | [] => [[x]]
      | g :: gs => (x :: g) :: gs

/-- Model of Python `str.split(sep)` for a single-character separator. -/
def pySplit (s : String) (c : Char) : List String :=
  (splitChars c s.toList).map (fun l => String.mk l)

/-- Model of Python `str.strip()` with no argument: remove leading and
trailing whitespace. -/
def pyStrip (s : String) : String :=
  String.mk (((s.toList.dropWhile Char.isWhitespace).reverse.dropWhile
    Char.isWhitespace).reverse)

/-- Model of Python `str.isdigit()` (restricted to ASCII digits, which is
what instrument responses contain): true iff the string is nonempty and
every character is a digit. -/
def pyIsDigit (s : String) : Bool :=
  !s.toList.isEmpty && s.toList.all Char.isDigit

/-- Model of Python `str.startswith(prefix)`. -/
def pyStartsWith (s pre : String) : Bool :=
  pre.toList.isPrefixOf s.toList

/-- Model of Python `str.endswith(suffix)`. -/
def pyEndsWith (s suf : String) : Bool :=
  suf.toList.reverse.isPrefixOf s.toList.reverse

/-- Model of Python `str.upper()` (ASCII). -/
def pyUpper (s : String) : String :=
  String.mk (s.toList.map Char.toUpper)

/-- Model of Python `str.replace('\n', '')`: drop every newline. -/
def removeNl (s : String) : String :=
  String.mk (s.toList.filter (fun c => c ≠ '\n'))

/-- Model of `ver[-1] = ver[-1].replace('\n','')` from `_getID`
(scpi.py:419): rewrite only the last element of the list. -/
def replaceLastNl : List String → List String
  | [] => []
  | [s] => [removeNl s]
  | s :: rest => s :: replaceLastNl rest

/-- Numeric value of a digit string (most significant digit first). -/
def digitsVal (l : List Char) : ℕ :=
  l.foldl (fun a c => a * 10 + (c.toNat - 48)) 0

/-- Model of Python `float(major + '.' + minor)` (scpi.py:416) on the
version-string fragments this code feeds it: when both components are
purely numeric the value is `major + minor / 10 ^ len(minor)`; any
non-numeric component makes `float` raise, modelled as `none`. -/
def pyFloatOfParts (major minor : String) : Option ℚ :=
  if pyIsDigit major && pyIsDigit minor then
    some ((digitsVal major.toList : ℚ) + (digitsVal minor.toList : ℚ) / (10 ^ minor.length))
  else
    none

/-! ## Firmware-version parsing and dialect state (`SCPI._getID`, scpi.py:404-421) -/

/-- The session version fields `_version`/`_versionLegacy`: either a float
(the numeric `{major}.{minor}` parse) or an opaque Python tuple of the
dot-separated fragments (the fallback of the bare `except`). -/
inductive PyVersion where
  | num (q : ℚ)
  | tup (parts : List String)
  deriving DecidableEq, Repr

/-- Python `>` on two tuples of strings: lexicographic with the prefix
rule (a longer tuple is greater than its proper prefix). -/
def listStrGt : List String → List String → Bool
  | [], _ => false
  | _ :: _, [] => true
  | a :: as, b :: bs => if a = b then listStrGt as bs else decide (b < a)

/-- Model of the comparison `self._version > self._versionLegacy`
(scpi.py:251, keysight.py:786).  In the code both fields are floats, or
both are tuples (the `except` branch of `_getID` sets both); a mixed
comparison would raise `TypeError` in Python and never occurs, modelled
as `false`. -/
def PyVersion.gt : PyVersion → PyVersion → Bool
  | .num a, .num b => decide (a > b)
  | .tup a, .tup b => listStrGt a b
  | _, _ => false

/-- The pair `(_version, _versionLegacy)` after `_getID` ran. -/
structure VersionState where
  version : PyVersion
  versionLegacy : PyVersion
  deriving DecidableEq, Repr

/-- Model of `float(ver[0]+'.'+ver[1])` including the `IndexError` when
the split produced fewer than two fragments (caught by the bare
`except`). -/
def parseMajorMinor : List String → Option ℚ
  | v0 :: v1 :: _ => pyFloatOfParts v0 v1
  | _ => none

/-- Model of the version-parsing part of `SCPI._getID` (scpi.py:413-421).
`fwStr` is the firmware field `idn[3]`; `familyLegacy` is the value the
class hierarchy stored in `_versionLegacy` (2.99 for the Keysight family,
9.999 for the DSOX3xxxT/MSOX3xxxT sub-families).  On a numeric parse the
threshold is kept; on a failed parse the version becomes an opaque tuple
and `_versionLegacy` becomes the empty tuple. -/
def getID (fwStr : String) (familyLegacy : ℚ) : VersionState :=
  match parseMajorMinor (pySplit fwStr '.') with
  | some q => ⟨.num q, .num familyLegacy⟩
  | none => ⟨.tup (replaceLastNl (pySplit fwStr '.')), .tup []⟩

/-- The dialect decision `self._version > self._versionLegacy` used by
`waveformData` (keysight.py:786) and `checkInstErrors` (scpi.py:251):
`true` means the Modern dialect. -/
def isModern (vs : VersionState) : Bool :=
  vs.version.gt vs.versionLegacy

/-- Helper: `replaceLastNl` preserves non-emptiness. -/
theorem replaceLastNl_ne_nil {l : List String} (h : l ≠ []) : replaceLastNl l ≠ [] := by
  cases l with
  | nil => exact absurd rfl h
  | cons a rest =>
    cases rest <;> simp [replaceLastNl]

/-- Helper: `splitChars` never returns the empty list. -/
theorem splitChars_ne_nil (c : Char) (l : List Char) : splitChars c l ≠ [] := by
  induction l with
  | nil => simp [splitChars]
  | cons x xs ih =>
    simp only [splitChars]
    split
    · simp
    · cases h : splitChars c xs <;> simp

/-- Helper: `pySplit` never returns the empty list. -/
theorem pySplit_ne_nil (s : String) (c : Char) : pySplit s c ≠ [] := by
  unfold pySplit
  intro h
  exact splitChars_ne_nil c s.toList (List.map_eq_nil_iff.mp h)

/-- Helper: a nonempty tuple compares greater than the empty tuple. -/
theorem listStrGt_nil {parts : List String} (h : parts ≠ []) :
    listStrGt parts [] = true := by
  cases parts with
  | nil => exact absurd rfl h
  | cons a rest => rfl

/-- Helper: evaluation of `getID` on a version string whose first two
dot-fragments are purely numeric. -/
theorem getID_eval {fw v0 v1 : String} {rest : List String} {fam : ℚ}
    (hsplit : pySplit fw '.' = v0 :: v1 :: rest)
    (hd0 : pyIsDigit v0 = true) (hd1 : pyIsDigit v1 = true) :
    getID fw fam =
      ⟨.num ((digitsVal v0.toList : ℚ) + (digitsVal v1.toList : ℚ) / 10 ^ v1.length),
       .num fam⟩ := by
  unfold getID
  rw [hsplit]
  simp [parseMajorMinor, pyFloatOfParts, hd0, hd1]

/-- Helper: `isModern` on two numeric versions is the rational comparison. -/
theorem isModern_num (a b : ℚ) :
    isModern ⟨.num a, .num b⟩ = true ↔ a > b := by
  simp [isModern, PyVersion.gt]

/-- C2: a firmware version string with purely numeric major and minor
components is classified Modern exactly when the parsed float exceeds the
family legacy threshold; the concrete strings "2.65", "3.00", "11.10"
against the Keysight threshold 2.99 resolve Legacy, Modern, Modern and
"A.01.23" is stored as the non-numeric tuple ("A","01","23"); every
version string whose major/minor parse fails is stored as a nonempty
tuple and is classified Modern unconditionally. -/
theorem C2_version_dialect :
    (∀ fw : String, ∀ fam q : ℚ, ∀ v0 v1 : String, ∀ rest : List String,
      pySplit fw '.' = v0 :: v1 :: rest →
      pyFloatOfParts v0 v1 = some q →
      (getID fw fam).version = .num q ∧ (isModern (getID fw fam) = true ↔ q > fam))
    ∧ (isModern (getID "2.65" (299/100)) = false
       ∧ isModern (getID "3.00" (299/100)) = true
       ∧ isModern (getID "11.10" (299/100)) = true)
    ∧ ((getID "A.01.23" (299/100)).version = .tup ["A", "01", "23"]
       ∧ isModern (getID "A.01.23" (299/100)) = true)
    ∧ (∀ fw : String, ∀ fam : ℚ,
      parseMajorMinor (pySplit fw '.') = none →
      ∃ parts : List String, parts ≠ [] ∧ (getID fw fam).version = .tup parts
        ∧ isModern (getID fw fam) = true) := by
  refine ⟨?hNum, ⟨?h265, ?h300, ?h1110⟩, ?hA, ?hOpq⟩
  case hNum =>
    intro fw fam q v0 v1 rest hsplit hparse
    unfold getID
    rw [hsplit]
    simp only [parseMajorMinor, hparse]
    refine ⟨by simp, ?_⟩
    simp [isModern, PyVersion.gt]
  case h265 =>
    rw [@getID_eval "2.65" "2" "65" [] (299/100) (by decide) (by decide) (by decide)]
    rw [show digitsVal "2".toList = 2 from by decide,
        show digitsVal "65".toList = 65 from by decide,
        show "65".length = 2 from by decide]
    simp only [isModern, PyVersion.gt, decide_eq_false_iff_not]
    norm_num
  case h300 =>
    rw [@getID_eval "3.00" "3" "00" [] (299/100) (by decide) (by decide) (by decide)]
    rw [show digitsVal "3".toList = 3 from by decide,
        show digitsVal "00".toList = 0 from by decide,
        show "00".length = 2 from by decide]
    simp only [isModern, PyVersion.gt, decide_eq_true_eq]
    norm_num
  case h1110 =>
    rw [@getID_eval "11.10" "11" "10" [] (299/100) (by decide) (by decide) (by decide)]
    rw [show digitsVal "11".toList = 11 from by decide,
        show digitsVal "10".toList = 10 from by decide,
        show "10".length = 2 from by decide]
    simp only [isModern, PyVersion.gt, decide_eq_true_eq]
    norm_num
  case hA =>
    have hsplit : pySplit "A.01.23" '.' = ["A", "01", "23"] := by decide
    have hparse : parseMajorMinor (pySplit "A.01.23" '.') = none := by decide
    constructor
    · unfold getID
      rw [hparse, hsplit]
      rfl
    · unfold isModern getID
      rw [hparse, hsplit]
      rfl
  case hOpq =>
    intro fw fam hparse
    refine ⟨replaceLastNl (pySplit fw '.'), replaceLastNl_ne_nil (pySplit_ne_nil fw '.'), ?_, ?_⟩
    · unfold getID
      rw [hparse]
    · unfold getID
      rw [hparse]
      simp only [isModern, PyVersion.gt]
      exact listStrGt_nil (replaceLastNl_ne_nil (pySplit_ne_nil fw '.'))

/-- Witness for `C2_version_dialect`: instantiate the numeric branch at
firmware string "3.00" and the non-numeric branch at "A.01.23". -/
theorem C2_version_dialect_witness :
    ((getID "3.00" (299/100)).version = .num ((3:ℚ) + 0 / 10 ^ 2)
      ∧ (isModern (getID "3.00" (299/100)) = true ↔ (3:ℚ) + 0 / 10 ^ 2 > 299/100))
    ∧ (∃ parts : List String, parts ≠ []
        ∧ (getID "A.01.23" (299/100)).version = .tup parts
        ∧ isModern (getID "A.01.23" (299/100)) = true) :=
  ⟨C2_version_dialect.1 "3.00" (299/100) ((3:ℚ) + 0 / 10 ^ 2) "3" "00" []
      (by decide)
      (by unfold pyFloatOfParts
          rw [show (pyIsDigit "3" && pyIsDigit "00") = true from by decide,
              show digitsVal "3".toList = 3 from by decide,
              show digitsVal "00".toList = 0 from by decide,
              show "00".length = 2 from by decide]
          norm_num),
   C2_version_dialect.2.2.2 "A.01.23" (299/100) (by decide)⟩

/-! ## Capability model resolution (`Oscilloscope.getBestClass`, oscilloscope.py:105-239) -/

/-- Model of `SCPI.channelStr` (scpi.py:181-190) on string channels:
`int(channel)` succeeds on a purely numeric string, yielding
`'CHAN{n}'`; otherwise the `ValueError` branch returns the string
unchanged (`_chanStr`).  The `None` case of the Python is not needed
here since the modelled call sites pass strings. -/
def channelStr (channel : String) : String :=
  if pyIsDigit channel then "CHAN" ++ toString (digitsVal channel.toList) else channel

/-- The `_chanAnaValidList` built by `Keysight.__init__` (keysight.py:68)
and `Oscilloscope.__init__` (oscilloscope.py:80):
`[str(x) for x in range(1, max_chan+1)]`. -/
def chanAnaValidListFor (maxChan : ℕ) : List String :=
  (List.range' 1 maxChan).map (fun n => toString n)

/-- The `_chanAllValidList` set by `Keysight.__init__` (keysight.py:74):
`[self.channelStr(x) for x in range(1, max_chan+1)]`, where
`channelStr` on an int renders `'CHAN{x}'`.  This overwrites the list the
`Oscilloscope` base class had built. -/
def keysightChanAllValidList (maxChan : ℕ) : List String :=
  (List.range' 1 maxChan).map (fun n => "CHAN" ++ toString n)

/-- The `_chanAllValidList` after `MSOX.__init__` (dso.py:108) appended
`['POD'+str(x) for x in range(1,3)]` to the Keysight list. -/
def msoxChanAllValidList (maxChan : ℕ) : List String :=
  keysightChanAllValidList maxChan ++ ["POD1", "POD2"]

/-- The `_chanAllValidList` after `MXR.__init__` (mxr.py:56-73) appended
differential, common-mode, function, histogram, waveform-memory, bus and
pod entries to the Keysight list. -/
def mxrChanAllValidList (maxChan : ℕ) : List String :=
  keysightChanAllValidList maxChan
    ++ (List.range' 1 maxChan).map (fun n => "DIFF" ++ toString n)
    ++ (List.range' 1 maxChan).map (fun n => "COMM" ++ toString n)
    ++ (List.range' 1 16).map (fun n => "FUNC" ++ toString n)
    ++ ["HIST"]
    ++ (List.range' 1 8).map (fun n => "WMEM" ++ toString n)
    ++ (List.range' 1 4).map (fun n => "BUS" ++ toString n)
    ++ ["POD1", "POD2"] ++ ["PODALL"]

/-- The concrete child classes `getBestClass` can produce (plus
`generic` for the original object returned unchanged when the
manufacturer is not Agilent/Keysight). -/
inductive ScopeClass where
  | MXRxx8A | MXRxx4A | MXRgen
  | EXRxx8A | EXRxx4A | EXRgen
  | UXRxxx4A | UXRxxx2A | UXRgen
  | DSOX3xx4A | DSOX3xx2A | DSOX3xx4T | DSOX3xx2T | DSOXgen
  | MSOX3xx4A | MSOX3xx2A | MSOX3xx4T | MSOX3xx2T | MSOXgen
  | KeysightGen
  | generic
  deriving DecidableEq, Repr

/-- Model of `Oscilloscope.getBestClass` (oscilloscope.py:105-239): pure
prefix/suffix dispatch on the uppercased IDN manufacturer and model
fields. -/
def getBestClass (manu model : String) : ScopeClass :=
  if pyStartsWith (pyUpper manu) "KEYSIGHT" || pyStartsWith (pyUpper manu) "AGILENT" then
    if pyStartsWith (pyUpper model) "MXR" then
      if pyEndsWith (pyUpper model) "8A" then .MXRxx8A
      else if pyEndsWith (pyUpper model) "4A" then .MXRxx4A
      else .MXRgen
    else if pyStartsWith (pyUpper model) "EXR" then
      if pyEndsWith (pyUpper model) "8A" then .EXRxx8A
      else if pyEndsWith (pyUpper model) "4A" then .EXRxx4A
      else .EXRgen
    else if pyStartsWith (pyUpper model) "UXR" then
      if pyEndsWith (pyUpper model) "4A" || pyEndsWith (pyUpper model) "4AP" then .UXRxxx4A
      else if pyEndsWith (pyUpper model) "2A" || pyEndsWith (pyUpper model) "2AP" then .UXRxxx2A
      else .UXRgen
    else if pyStartsWith (pyUpper model) "DSO-X" then
      if pyStartsWith (pyUpper model) "DSO-X 3" && pyEndsWith (pyUpper model) "4A" then .DSOX3xx4A
      else if pyStartsWith (pyUpper model) "DSO-X 3" && pyEndsWith (pyUpper model) "2A" then .DSOX3xx2A
      else if pyStartsWith (pyUpper model) "DSO-X 3" && pyEndsWith (pyUpper model) "4T" then .DSOX3xx4T
      else if pyStartsWith (pyUpper model) "DSO-X 3" && pyEndsWith (pyUpper model) "2T" then .DSOX3xx2T
      else .DSOXgen
    else if pyStartsWith (pyUpper model) "MSO-X" then
      if pyStartsWith (pyUpper model) "MSO-X 3" && pyEndsWith (pyUpper model) "4A" then .MSOX3xx4A
      else if pyStartsWith (pyUpper model) "MSO-X 3" && pyEndsWith (pyUpper model) "2A" then .MSOX3xx2A
      else if pyStartsWith (pyUpper model) "MSO-X 3" && pyEndsWith (pyUpper model) "4T" then .MSOX3xx4T
      else if pyStartsWith (pyUpper model) "MSO-X 3" && pyEndsWith (pyUpper model) "2T" then .MSOX3xx2T
      else .MSOXgen
    else .KeysightGen
  else .generic

/-- The `_chanAllValidList` of the object each `ScopeClass` constructs
(each constructor fixes `maxChannel`; generic classes use their Python
default `maxChannel=2` for Keysight/DSOX/MSOX and `4` for MXR/EXR).
`none` for the UXR classes, whose source file (`uxr.py`) is not part of
the sources, and for `generic`, whose list is whatever the original
object had. -/
def chanAllValid : ScopeClass → Option (List String)
  | .MXRxx8A => some (mxrChanAllValidList 8)
  | .MXRxx4A => some (mxrChanAllValidList 4)
  | .MXRgen => some (mxrChanAllValidList 4)
  | .EXRxx8A => some (mxrChanAllValidList 8)
  | .EXRxx4A => some (mxrChanAllValidList 4)
  | .EXRgen => some (mxrChanAllValidList 4)
  | .UXRxxx4A => none
  | .UXRxxx2A => none
  | .UXRgen => none
  | .DSOX3xx4A => some (keysightChanAllValidList 4)
  | .DSOX3xx2A => some (keysightChanAllValidList 2)
  | .DSOX3xx4T => some (keysightChanAllValidList 4)
  | .DSOX3xx2T => some (keysightChanAllValidList 2)
  | .DSOXgen => some (keysightChanAllValidList 2)
  | .MSOX3xx4A => some (msoxChanAllValidList 4)
  | .MSOX3xx2A => some (msoxChanAllValidList 2)
  | .MSOX3xx4T => some (msoxChanAllValidList 4)
  | .MSOX3xx2T => some (msoxChanAllValidList 2)
  | .MSOXgen => some (msoxChanAllValidList 2)
  | .KeysightGen => some (keysightChanAllValidList 2)
  | .generic => none

/-- The `_chanAnaValidList` of the object each `ScopeClass` constructs
(defined where the sources define it, as for `chanAllValid`). -/
def chanAnaValid : ScopeClass → Option (List String)
  | .UXRxxx4A => none
  | .UXRxxx2A => none
  | .UXRgen => none
  | .generic => none
  | .MXRxx8A => some (chanAnaValidListFor 8)
  | .EXRxx8A => some (chanAnaValidListFor 8)
  | .DSOX3xx4A => some (chanAnaValidListFor 4)
  | .DSOX3xx4T => some (chanAnaValidListFor 4)
  | .MSOX3xx4A => some (chanAnaValidListFor 4)
  | .MSOX3xx4T => some (chanAnaValidListFor 4)
  | .MXRxx4A => some (chanAnaValidListFor 4)
  | .MXRgen => some (chanAnaValidListFor 4)
  | .EXRxx4A => some (chanAnaValidListFor 4)
  | .EXRgen => some (chanAnaValidListFor 4)
  | _ => some (chanAnaValidListFor 2)

/-- C7, counterexample: the identity ("KEYSIGHT", "DSO-X 3034A") selects
the 4-channel `DSOX3xx4A` class, but its valid-channel set
(`_chanAllValidList`) is ("CHAN1","CHAN2","CHAN3","CHAN4"), which does
not contain "1" — so it is not the set ("1","2","3","4") the claim
states. -/
theorem C7_counterexample :
    getBestClass "KEYSIGHT" "DSO-X 3034A" = .DSOX3xx4A
    ∧ chanAllValid .DSOX3xx4A = some ["CHAN1", "CHAN2", "CHAN3", "CHAN4"]
    ∧ "1" ∉ ["CHAN1", "CHAN2", "CHAN3", "CHAN4"] := by
  decide

/-- C7, amended: the identity ("KEYSIGHT", "DSO-X 3034A") selects the
4-channel analog-only `DSOX3xx4A` class, whose valid-channel set
`_chanAllValidList` equals ("CHAN1","CHAN2","CHAN3","CHAN4") with no
PODx entries, and whose analog-channel list `_chanAnaValidList` equals
("1","2","3","4"). -/
theorem C7_dsox_capability :
    getBestClass "KEYSIGHT" "DSO-X 3034A" = .DSOX3xx4A
    ∧ chanAllValid .DSOX3xx4A = some ["CHAN1", "CHAN2", "CHAN3", "CHAN4"]
    ∧ chanAnaValid .DSOX3xx4A = some ["1", "2", "3", "4"]
    ∧ (∀ s ∈ ["CHAN1", "CHAN2", "CHAN3", "CHAN4"], pyStartsWith s "POD" = false) := by
  decide

/-- C8, counterexample: the identity ("KEYSIGHT", "MSOX3034A") — the
model string the claim uses — does not match the `startswith('MSO-X')`
test, so `getBestClass` falls through to the generic `Keysight` class
(default 2 channels) whose valid-channel set contains neither "POD1" nor
"POD2". -/
theorem C8_counterexample :
    getBestClass "KEYSIGHT" "MSOX3034A" = .KeysightGen
    ∧ chanAllValid .KeysightGen = some ["CHAN1", "CHAN2"]
    ∧ "POD1" ∉ ["CHAN1", "CHAN2"]
    ∧ "POD2" ∉ ["CHAN1", "CHAN2"] := by
  decide

/-- C8, amended: with the model string the instrument family actually
reports, "MSO-X 3034A", resolution selects the `MSOX3xx4A` class, whose
valid-channel set includes "POD1" and "POD2" in addition to the analog
channels CHAN1..CHAN4. -/
theorem C8_msox_capability :
    getBestClass "KEYSIGHT" "MSO-X 3034A" = .MSOX3xx4A
    ∧ chanAllValid .MSOX3xx4A
        = some ["CHAN1", "CHAN2", "CHAN3", "CHAN4", "POD1", "POD2"]
    ∧ "POD1" ∈ ["CHAN1", "CHAN2", "CHAN3", "CHAN4", "POD1", "POD2"]
    ∧ "POD2" ∈ ["CHAN1", "CHAN2", "CHAN3", "CHAN4", "POD1", "POD2"] := by
  decide

/-! ## Waveform decode pipeline (keysight.py:287-581 and 587-760)

The instrument I/O (source/format/byte-order commands, preamble query,
binary-block download) yields a parsed preamble and a list of decoded
raw sample values; the definitions below model the pure computation the
two download routines perform on them: window-start selection, time-axis
construction, value scaling, bit-lane unpacking and header assembly.
Float arithmetic is modelled over `ℚ`; the `meta` list of
human-readable strings is omitted. -/

/-- Python `>>` on an int: arithmetic shift = floor division by `2 ^ n`. -/
def pyShr (a : ℤ) (n : ℕ) : ℤ := Int.fdiv a (2 ^ n)

/-- Python `& 1` on an int: the low two's-complement bit. -/
def pyAnd1 (a : ℤ) : ℤ := Int.emod a 2

/-- Python `int()` on a float: truncation toward zero. -/
def pyIntTrunc (q : ℚ) : ℤ := if q < 0 then -(⌊-q⌋) else ⌊q⌋

/-- Value of a byte reinterpreted as a signed 8-bit integer, as
`struct.unpack` with a signed-byte format does (keysight.py:479). -/
def toSigned8 (b : ℕ) : ℤ := if b < 128 then (b : ℤ) else (b : ℤ) - 256

/-- The bit-lane unpacking loop shared by both download routines
(keysight.py:559-561 and 745-747): `y[ch] = (values >> ch) & 1` for
`ch in range(bits)`. -/
def podLanes (bits : ℕ) (values : List ℤ) : List (List ℤ) :=
  (List.range bits).map (fun ch => values.map (fun v => pyAnd1 (pyShr v ch)))

/-- The pod number: 1 for `PODALL` (keysight.py:551-553), else
`int(channel[-1])` (keysight.py:556, 750). -/
def podNumber (channel : String) : ℕ :=
  if channel = "PODALL" then 1
  else
    match channel.toList.getLast? with
    | some c => c.toNat - 48
    | none => 0

/-- The digital header `['Time (s)'] + ['D{}'.format((pod-1)*bits+ch) ...]`
(keysight.py:563, 751). -/
def podHeader (pod bits : ℕ) : List String :=
  "Time (s)" :: (List.range bits).map (fun ch => "D" ++ toString ((pod - 1) * bits + ch))

/-- Element width of each waveform format in the Modern dialect
(keysight.py:475-501): BYTE, WORD, LONG, LONGLONG, FLOat. -/
def bitsOf : ℕ → ℕ
  | 1 => 8
  | 2 => 16
  | 3 => 32
  | 4 => 64
  | 5 => 32
  | _ => 0

/-- The time axis `((np.arange(nLength) - x_reference + start) *
x_increment) + x_origin` (keysight.py:531; with `start = 0` at
keysight.py:724). -/
def xAxis (n : ℕ) (xref start : ℤ) (xinc xorg : ℚ) : List ℚ :=
  (List.range n).map (fun (i : ℕ) => (((i : ℚ) - (xref : ℚ) + (start : ℚ)) * xinc) + xorg)

/-- Numeric fields of the Modern-dialect preamble used by the decode
computation (keysight.py:394-444). -/
structure PreambleNew where
  wavForm : ℕ
  acqType : ℕ
  xIncrement : ℚ
  xOrigin : ℚ
  xReference : ℤ
  yIncrement : ℚ
  yOrigin : ℚ
  yReference : ℤ
  xDisplayRange : ℚ
  xDisplayOrigin : ℚ
  xUnits : ℕ
  yUnits : ℕ

/-- `units_axis_dict` (keysight.py:383-392); an absent code is a
`KeyError`. -/
def unitsAxisDict : ℕ → Option String
  | 0 => some "UNKNOWN"
  | 1 => some "Voltage"
  | 2 => some "Time"
  | 3 => some "CONSTANT"
  | 4 => some "Current"
  | 5 => some "Decibels"
  | 6 => some "Frequency"
  | 7 => some "Power"
  | _ => none

/-- `units_abbrev_dict` (keysight.py:372-381). -/
def unitsAbbrevDict : ℕ → Option String
  | 0 => some "?"
  | 1 => some "V"
  | 2 => some "s"
  | 3 => some "CONST."
  | 4 => some "A"
  | 5 => some "dB"
  | 6 => some "Hz"
  | 7 => some "W"
  | _ => none

/-- The Modern-dialect analog header
`[f'{units_axis_dict[x_units]} ({units_abbrev_dict[x_units]})', ...]`
(keysight.py:577). -/
def analogHeaderNew (p : PreambleNew) : Option (List String) :=
  match unitsAxisDict p.xUnits, unitsAbbrevDict p.xUnits,
        unitsAxisDict p.yUnits, unitsAbbrevDict p.yUnits with
  | some xa, some xb, some ya, some yb =>
    some [xa ++ " (" ++ xb ++ ")", ya ++ " (" ++ yb ++ ")"]
  | _, _, _, _ => none

/-- The center-of-display midpoint
`int((((x_display_range / 2) + x_display_origin) - x_origin) / x_increment)`
(keysight.py:454). -/
def midptNew (p : PreambleNew) : ℤ :=
  pyIntTrunc ((((p.xDisplayRange / 2) + p.xDisplayOrigin) - p.xOrigin) / p.xIncrement)

/-- The window start of the Modern download (keysight.py:447-457):
0 when no point count was requested or the source is a histogram
(curls back to full data with a warning), else `midpt - points // 2`. -/
def startNew (p : PreambleNew) (channel : String) (points : Option ℕ) : ℤ :=
  match points with
  | none => 0
  | some pts => if pyStartsWith channel "HIST" then 0 else midptNew p - (pts / 2 : ℕ)

/-- Raw sample values decoded from the binary block: integers for the
BYTE/WORD/LONG/LONGLONG formats, rationals (modelling IEEE floats) for
FLOat. -/
inductive RawValues where
  | ints (vs : List ℤ)
  | floats (vs : List ℚ)
  deriving DecidableEq, Repr

/-- Length of the decoded value list. -/
def RawValues.len : RawValues → ℕ
  | .ints vs => vs.length
  | .floats vs => vs.length

/-- The value axis of a decode: a scaled/unscaled analog array, a raw
bus-code array, or per-bit lanes for a digital pod. -/
inductive WaveY where
  | analog (ys : List ℚ)
  | digitalBus (ys : List ℤ)
  | digitalLanes (ls : List (List ℤ))
  deriving DecidableEq, Repr

/-- The value-axis and header branch of `_waveformDataNew`
(keysight.py:533-577).  `none` models the Python error paths: a
value-type/format mismatch (impossible after `struct.unpack`), a
`KeyError` from the units dictionaries, and the unbound `y` when the
acquire type is DIGITAL but the channel is neither BUS nor POD. -/
def yCalcNew (p : PreambleNew) (channel : String) (values : RawValues) :
    Option (WaveY × List String) :=
  match values with
  | .ints vs =>
    if p.wavForm = 5 then none
    else if p.acqType = 9 then
      if pyStartsWith channel "BUS" then
        some (.digitalBus vs, ["Time (s)", "BUS Values"])
      else if pyStartsWith channel "POD" then
        some (.digitalLanes (podLanes (bitsOf p.wavForm) vs),
          podHeader (podNumber channel) (bitsOf p.wavForm))
      else none
    else
      match analogHeaderNew p with
      | none => none
      | some header =>
        some (.analog (vs.map (fun (v : ℤ) =>
          (((v : ℚ) - (p.yReference : ℚ)) * p.yIncrement) + p.yOrigin)), header)
  | .floats vs =>
    if p.wavForm ≠ 5 then none
    else if p.acqType = 9 then none
    else
      match analogHeaderNew p with
      | none => none
      | some header => some (.analog vs, header)

/-- Model of the decode computation of `_waveformDataNew`
(keysight.py:446-581) from the parsed preamble and decoded raw values to
`(x, y, header)`: the format guard (`RuntimeError` at keysight.py:501 for
an unknown format code), the window start, the time axis of
keysight.py:531 and the value branch. -/
def waveformCalcNew (p : PreambleNew) (channel : String) (points : Option ℕ)
    (values : RawValues) : Option (List ℚ × WaveY × List String) :=
  if p.wavForm < 1 ∨ 5 < p.wavForm then
    none
  else
    match yCalcNew p channel values with
    | none => none
    | some (y, header) =>
      some (xAxis values.len p.xReference (startNew p channel points)
        p.xIncrement p.xOrigin, y, header)

/-- Numeric fields of the Legacy-dialect preamble used by the decode
computation (keysight.py:641-695). -/
structure PreambleLegacy where
  wavForm : ℕ
  acqType : ℕ
  xIncrement : ℚ
  xOrigin : ℚ
  xReference : ℤ
  yIncrement : ℚ
  yOrigin : ℚ
  yReference : ℤ

/-- Model of the decode computation of `_waveformDataLegacy`
(keysight.py:697-760): values are the unsigned bytes of the block
(`struct.unpack("%dB", ...)`), the time axis uses no window start, and
the value axis is raw for BUS, bit-lanes for POD (8 or 16 bits by
format), else the scaled voltages. -/
def waveformCalcLegacy (p : PreambleLegacy) (channel : String)
    (values : List ℤ) : List ℚ × WaveY × List String :=
  let x := xAxis values.length p.xReference 0 p.xIncrement p.xOrigin
  if pyStartsWith channel "BUS" then
    (x, .digitalBus values, ["Time (s)", "BUS Values"])
  else if pyStartsWith channel "POD" then
    (x, .digitalLanes (podLanes (if p.wavForm = 1 then 16 else 8) values),
     podHeader (podNumber channel) (if p.wavForm = 1 then 16 else 8))
  else
    (x, .analog (values.map (fun (v : ℤ) =>
      (((v : ℚ) - (p.yReference : ℚ)) * p.yIncrement) + p.yOrigin)),
     ["Time (s)", "Voltage (V)"])

/-- C1: in every successful decode, the time-axis value at index `i` is
`((i - x_reference + window_start) * x_increment) + x_origin` with
`window_start = 0` when no point subset was requested (and always 0 in
the Legacy path); integer-format analog samples are scaled by
`((raw - y_reference) * y_increment) + y_origin`; FLOat samples pass
through unscaled; digital bus samples are returned as raw integer codes
and digital pods as bit lanes. -/
theorem C1_decode_formulas :
    (∀ n : ℕ, ∀ xref start : ℤ, ∀ xinc xorg : ℚ, ∀ i : ℕ, i < n →
      (xAxis n xref start xinc xorg)[i]?
        = some ((((i : ℚ) - (xref : ℚ) + (start : ℚ)) * xinc) + xorg))
    ∧ (∀ p : PreambleNew, ∀ channel : String, startNew p channel none = 0)
    ∧ (∀ p : PreambleNew, ∀ channel : String, ∀ points : Option ℕ,
        ∀ vs : List ℤ, ∀ header : List String,
        1 ≤ p.wavForm → p.wavForm ≤ 4 → p.acqType ≠ 9 →
        analogHeaderNew p = some header →
        waveformCalcNew p channel points (.ints vs)
          = some (xAxis vs.length p.xReference (startNew p channel points)
              p.xIncrement p.xOrigin,
            .analog (vs.map (fun (v : ℤ) =>
              (((v : ℚ) - (p.yReference : ℚ)) * p.yIncrement) + p.yOrigin)),
            header))
    ∧ (∀ p : PreambleNew, ∀ channel : String, ∀ points : Option ℕ,
        ∀ vs : List ℚ, ∀ header : List String,
        p.wavForm = 5 → p.acqType ≠ 9 → analogHeaderNew p = some header →
        waveformCalcNew p channel points (.floats vs)
          = some (xAxis vs.length p.xReference (startNew p channel points)
              p.xIncrement p.xOrigin, .analog vs, header))
    ∧ (∀ p : PreambleNew, ∀ channel : String, ∀ points : Option ℕ, ∀ vs : List ℤ,
        1 ≤ p.wavForm → p.wavForm ≤ 4 → p.acqType = 9 →
        (pyStartsWith channel "BUS" = true →
          waveformCalcNew p channel points (.ints vs)
            = some (xAxis vs.length p.xReference (startNew p channel points)
                p.xIncrement p.xOrigin,
              .digitalBus vs, ["Time (s)", "BUS Values"]))
        ∧ (pyStartsWith channel "BUS" = false → pyStartsWith channel "POD" = true →
          waveformCalcNew p channel points (.ints vs)
            = some (xAxis vs.length p.xReference (startNew p channel points)
                p.xIncrement p.xOrigin,
              .digitalLanes (podLanes (bitsOf p.wavForm) vs),
              podHeader (podNumber channel) (bitsOf p.wavForm))))
    ∧ (∀ pl : PreambleLegacy, ∀ channel : String, ∀ vs : List ℤ,
        (waveformCalcLegacy pl channel vs).1
          = xAxis vs.length pl.xReference 0 pl.xIncrement pl.xOrigin
        ∧ (pyStartsWith channel "BUS" = true →
            (waveformCalcLegacy pl channel vs).2.1 = .digitalBus vs)
        ∧ (pyStartsWith channel "BUS" = false → pyStartsWith channel "POD" = true →
            (waveformCalcLegacy pl channel vs).2.1
              = .digitalLanes (podLanes (if pl.wavForm = 1 then 16 else 8) vs))
        ∧ (pyStartsWith channel "BUS" = false → pyStartsWith channel "POD" = false →
            (waveformCalcLegacy pl channel vs).2.1 = .analog (vs.map (fun (v : ℤ) =>
              (((v : ℚ) - (pl.yReference : ℚ)) * pl.yIncrement) + pl.yOrigin)))) := by
  refine ⟨?hx, ?hstart, ?hscale, ?hfloat, ?hdig, ?hleg⟩
  case hx =>
    intro n xref start xinc xorg i h
    simp only [xAxis, List.getElem?_map, List.getElem?_range h, Option.map_some']
  case hstart =>
    intro p channel
    rfl
  case hscale =>
    intro p channel points vs header h1 h4 hacq hh
    unfold waveformCalcNew
    rw [if_neg (by omega)]
    simp [yCalcNew, hacq, hh, RawValues.len, show p.wavForm ≠ 5 by omega]
  case hfloat =>
    intro p channel points vs header h5 hacq hh
    unfold waveformCalcNew
    rw [if_neg (by omega)]
    simp [yCalcNew, h5, hacq, hh, RawValues.len]
  case hdig =>
    intro p channel points vs h1 h4 hacq
    constructor
    · intro hbus
      unfold waveformCalcNew
      rw [if_neg (by omega)]
      simp [yCalcNew, hacq, hbus, RawValues.len, show p.wavForm ≠ 5 by omega]
    · intro hbus hpod
      unfold waveformCalcNew
      rw [if_neg (by omega)]
      simp [yCalcNew, hacq, hbus, hpod, RawValues.len, show p.wavForm ≠ 5 by omega]
  case hleg =>
    intro pl channel vs
    refine ⟨?_, ?_, ?_, ?_⟩
    · unfold waveformCalcLegacy
      split
      · rfl
      · split <;> rfl
    · intro hbus
      unfold waveformCalcLegacy
      rw [if_pos hbus]
    · intro hbus hpod
      unfold waveformCalcLegacy
      rw [if_neg (by simp [hbus]), if_pos hpod]
    · intro hbus hpod
      unfold waveformCalcLegacy
      rw [if_neg (by simp [hbus]), if_neg (by simp [hpod])]

/-- Witness for `C1_decode_formulas`: a concrete Modern-dialect WORD
decode of two samples on channel "1". -/
theorem C1_decode_formulas_witness :
    (xAxis 2 0 0 1 0)[1]?
      = some ((((1 : ℚ) - ((0:ℤ) : ℚ) + ((0:ℤ) : ℚ)) * 1) + 0)
    ∧ waveformCalcNew ⟨2, 1, 1, 0, 0, 2, 1, 0, 1, 0, 2, 1⟩ "1" none (.ints [10, -3])
        = some (xAxis ([10, -3] : List ℤ).length
            (PreambleNew.xReference ⟨2, 1, 1, 0, 0, 2, 1, 0, 1, 0, 2, 1⟩)
            (startNew ⟨2, 1, 1, 0, 0, 2, 1, 0, 1, 0, 2, 1⟩ "1" none) 1 0,
          .analog (([10, -3] : List ℤ).map (fun (v : ℤ) =>
            (((v : ℚ) - ((0:ℤ) : ℚ)) * 2) + 1)),
          ["Time (s)", "Voltage (V)"]) := by
  constructor
  · exact C1_decode_formulas.1 2 0 0 1 0 1 (by decide)
  · exact C1_decode_formulas.2.2.1 ⟨2, 1, 1, 0, 0, 2, 1, 0, 1, 0, 2, 1⟩
      "1" none [10, -3] ["Time (s)", "Voltage (V)"]
      (by decide) (by decide) (by decide) rfl

/-- C6: every digital-pod decode unpacks each raw sample into bit lanes
with lane `ch = (raw >> ch) & 1`; the byte `0b10110001` (value 177, which
`struct.unpack` reads as the signed byte -79 in the Modern path and as
the unsigned 177 in the Legacy path) yields lanes (1,0,0,0,1,1,0,1) for
bits 0..7, and the POD1 header labels the 8 lanes D0..D7. -/
theorem C6_pod_bitlane_unpack :
    (∀ bits : ℕ, ∀ vs : List ℤ, ∀ ch : ℕ, ch < bits →
      (podLanes bits vs)[ch]? = some (vs.map (fun (v : ℤ) => pyAnd1 (pyShr v ch))))
    ∧ toSigned8 177 = -79
    ∧ podLanes 8 [toSigned8 177] = [[1], [0], [0], [0], [1], [1], [0], [1]]
    ∧ podLanes 8 [(177 : ℤ)] = [[1], [0], [0], [0], [1], [1], [0], [1]]
    ∧ podHeader (podNumber "POD1") 8
        = ["Time (s)", "D0", "D1", "D2", "D3", "D4", "D5", "D6", "D7"] := by
  refine ⟨?_, by decide, by decide, by decide, by decide⟩
  intro bits vs ch h
  simp only [podLanes, List.getElem?_map, List.getElem?_range h, Option.map_some']

/-- Witness for `C6_pod_bitlane_unpack`: lane 0 of a POD byte decode. -/
theorem C6_pod_bitlane_unpack_witness :
    (podLanes 8 [(-79 : ℤ)])[0]?
      = some ([(-79 : ℤ)].map (fun (v : ℤ) => pyAnd1 (pyShr v 0))) :=
  C6_pod_bitlane_unpack.1 8 [(-79 : ℤ)] 0 (by decide)

/-! ## Error-queue drain (`SCPI.checkInstErrors`, scpi.py:247-313)

The instrument is modelled as a function from the index of the query
issued by the call to its outcome: a response line, a VISA timeout, or
any other VISA I/O error.  `drainLoop` is the bounded `for reads in
range(0, self.ErrorQueue)` loop; its result carries the `errors` flag
the call returns, the session's `_legacyError` flag after the call, and
the trace of (command form, outcome) of every query issued, in order. -/

/-- Outcome of one error query against the instrument. -/
inductive ReadOutcome where
  | ok (s : String)
  | timeout
  | ioerr
  deriving DecidableEq, Repr

/-- Which error-query form is in use: `methodNew` is
`"SYSTem:ERRor? STRing"` with sentinel prefix `"0,"`, `methodOld` is
`"SYSTem:ERRor?"` with sentinel prefix `"+0,"` (scpi.py:249-250). -/
inductive ErrForm where
  | new
  | old
  deriving DecidableEq, Repr

/-- The command string of each error-query form. -/
def errCmdStr : ErrForm → String
  | .new => "SYSTem:ERRor? STRing"
  | .old => "SYSTem:ERRor?"

/-- The sentinel test `error_string.find(*noerr) != -1` (scpi.py:291):
for `noerr = ("0,", 0, 2)` and `("+0,", 0, 3)` the bounded `find` over
the first `len(prefix)` characters succeeds exactly when the string
starts with the prefix. -/
def noerrMatch : ErrForm → String → Bool
  | .new, s => pyStartsWith s "0,"
  | .old, s => pyStartsWith s "+0,"

/-- Result of one `checkInstErrors` call. -/
structure DrainResult where
  errors : Bool
  legacyError : Bool
  trace : List (ErrForm × ReadOutcome)
  deriving DecidableEq, Repr

/-- The body of the bounded drain loop (scpi.py:259-313), recursing on
the remaining iterations of `range(0, ErrorQueue)`.  `dev k` is the
outcome of the k-th query of this call and `i` indexes the next query.
A modern-form timeout switches to the Legacy command and flag and
continues (scpi.py:267-283); any other VISA error reports and breaks
with `errors = True` (scpi.py:284-287); an empty stripped response
breaks with `errors = True` (scpi.py:308-311); a sentinel match breaks
(scpi.py:305-306); a purely numeric non-sentinel response while the
Legacy flag is set switches to the New command and flag and retries
(scpi.py:294-301); any other non-sentinel response reports, sets
`errors = True` and continues (scpi.py:303-304). -/
def drainLoop (dev : ℕ → ReadOutcome) (i : ℕ) (fuel : ℕ) (cmd : ErrForm)
    (legacyError : Bool) (errors : Bool) : DrainResult :=
  match fuel with
  | 0 => ⟨errors, legacyError, []⟩
  | fuel + 1 =>
    match dev i with
    | .timeout =>
      if cmd = .new then
        let r := drainLoop dev (i + 1) fuel .old true errors
        ⟨r.errors, r.legacyError, (cmd, .timeout) :: r.trace⟩
      else
        ⟨true, legacyError, [(cmd, .timeout)]⟩
    | .ioerr => ⟨true, legacyError, [(cmd, .ioerr)]⟩
    | .ok s =>
      if pyStrip s ≠ "" then
        if noerrMatch cmd (pyStrip s) = false then
          if legacyError && pyIsDigit (pyStrip s) then
            let r := drainLoop dev (i + 1) fuel .new false errors
            ⟨r.errors, r.legacyError, (cmd, .ok s) :: r.trace⟩
          else
            let r := drainLoop dev (i + 1) fuel cmd legacyError true
            ⟨r.errors, r.legacyError, (cmd, .ok s) :: r.trace⟩
        else
          ⟨errors, legacyError, [(cmd, .ok s)]⟩
      else
        ⟨true, legacyError, [(cmd, .ok s)]⟩

/-- `SCPI.ErrorQueue` (scpi.py:49): the error-queue size bounding the
drain loop. -/
def ErrorQueue : ℕ := 30

/-- The `_legacyError` flag a fresh session starts with
(`SCPI.__init__`, scpi.py:81). -/
def initLegacyError : Bool := true

/-- The command-form selection at the top of `checkInstErrors`
(scpi.py:251-257): the New form only when `_legacyError` is already
false and the version exceeds the legacy threshold. -/
def selectCmd (version versionLegacy : PyVersion) (legacyError : Bool) : ErrForm :=
  if !legacyError && version.gt versionLegacy then .new else .old

/-- Model of one `checkInstErrors` call (scpi.py:247-313): select the
command form, set `_legacyError` to true when falling back to the Legacy
form, and run the bounded loop with `errors = False`. -/
def checkInstErrors (version versionLegacy : PyVersion) (legacyError : Bool)
    (dev : ℕ → ReadOutcome) : DrainResult :=
  match selectCmd version versionLegacy legacyError with
  | .new => drainLoop dev 0 ErrorQueue .new legacyError false
  | .old => drainLoop dev 0 ErrorQueue .old true false

/-- A session's successive drain calls: each element of `devs` is the
instrument behaviour during one `checkInstErrors` call; the
`_legacyError` flag is threaded from call to call.  Returns the
concatenated trace and the final flag. -/
def runDrains (version versionLegacy : PyVersion) :
    List (ℕ → ReadOutcome) → Bool → List (ErrForm × ReadOutcome) × Bool
  | [], flag => ([], flag)
  | d :: ds, flag =>
    let r := checkInstErrors version versionLegacy flag d
    let rest := runDrains version versionLegacy ds r.legacyError
    (r.trace ++ rest.1, rest.2)

/-- A trace entry that is a Legacy-form read answered by a purely
numeric string: the evidence on which the session switches to the New
error form. -/
def okDigitRead : ErrForm × ReadOutcome → Prop
  | (.old, .ok s) => pyIsDigit (pyStrip s) = true
  | _ => False

/-- Some entry of the trace is a Legacy-form read with a purely numeric
response. -/
def digitIn (tr : List (ErrForm × ReadOutcome)) : Prop :=
  ∃ r ∈ tr, okDigitRead r

/-- Every New-form read in the trace is preceded — in the given context
or earlier in the trace — by a Legacy-form read with a purely numeric
response. -/
def justifiedFrom (ctx : Prop) : List (ErrForm × ReadOutcome) → Prop
  | [] => True
  | r :: rest => (r.1 = .new → ctx) ∧ justifiedFrom (ctx ∨ okDigitRead r) rest

/-- The device of the C5 counterexample run: times out on the first
query, answers the purely numeric "10" to the second, and answers the
Modern no-error sentinel from then on. -/
def c5dev : ℕ → ReadOutcome := fun k =>
  if k = 0 then .timeout
  else if k = 1 then .ok "10"
  else .ok "0,\"No error\""

/-- An instrument that always answers the error query with a nonempty
(after stripping) response matching neither dialect's no-error sentinel:
the "fake instrument that never returns the no-error sentinel" of the
spec, answering with genuine error text. -/
def alwaysErrText (dev : ℕ → ReadOutcome) : Prop :=
  ∀ k : ℕ, ∃ s : String, dev k = .ok s ∧ pyStrip s ≠ ""
    ∧ pyStartsWith (pyStrip s) "0," = false ∧ pyStartsWith (pyStrip s) "+0," = false

/-- Helper: the drain loop never issues more queries than its fuel. -/
theorem drainLoop_trace_length_le (dev : ℕ → ReadOutcome) :
    ∀ fuel i : ℕ, ∀ cmd : ErrForm, ∀ le er : Bool,
    (drainLoop dev i fuel cmd le er).trace.length ≤ fuel := by
  intro fuel
  induction fuel with
  | zero => intro i cmd le er; simp [drainLoop]
  | succ n ih =>
    intro i cmd le er
    cases hdev : dev i with
    | timeout =>
      simp only [drainLoop, hdev]
      split
      · have := ih (i + 1) .old true er
        simp only [List.length_cons]
        omega
      · simp
    | ioerr => simp [drainLoop, hdev]
    | ok s =>
      simp only [drainLoop, hdev]
      split
      · split
        · split
          · have := ih (i + 1) .new false er
            simp only [List.length_cons]
            omega
          · have := ih (i + 1) cmd le true
            simp only [List.length_cons]
            omega
        · simp
      · simp

/-- Helper: once `errors` is set, the drain loop reports it. -/
theorem drainLoop_errors_mono (dev : ℕ → ReadOutcome) :
    ∀ fuel i : ℕ, ∀ cmd : ErrForm, ∀ le : Bool,
    (drainLoop dev i fuel cmd le true).errors = true := by
  intro fuel
  induction fuel with
  | zero => intro i cmd le; rfl
  | succ n ih =>
    intro i cmd le
    cases hdev : dev i with
    | timeout =>
      simp only [drainLoop, hdev]
      split
      · exact ih (i + 1) .old true
      · rfl
    | ioerr => simp [drainLoop, hdev]
    | ok s =>
      simp only [drainLoop, hdev]
      split
      · split
        · split
          · exact ih (i + 1) .new false
          · exact ih (i + 1) cmd le
        · rfl
      · rfl

/-- Helper: against an always-erroring instrument the loop consumes all
its fuel. -/
theorem drainLoop_len_exact {dev : ℕ → ReadOutcome} (H : alwaysErrText dev) :
    ∀ fuel i : ℕ, ∀ cmd : ErrForm, ∀ le er : Bool,
    (drainLoop dev i fuel cmd le er).trace.length = fuel := by
  intro fuel
  induction fuel with
  | zero => intro i cmd le er; rfl
  | succ n ih =>
    intro i cmd le er
    obtain ⟨s, hdev, hne, h0, hp0⟩ := H i
    have hnoerr : noerrMatch cmd (pyStrip s) = false := by
      cases cmd <;> simp [noerrMatch, h0, hp0]
    simp only [drainLoop, hdev]
    rw [if_pos hne, if_pos hnoerr]
    split
    · simp [ih]
    · simp [ih]

/-- Helper: against an always-erroring instrument the loop reports an
error when the Legacy flag is off (no digit-retry can fire). -/
theorem drainLoop_errors_notlegacy {dev : ℕ → ReadOutcome} (H : alwaysErrText dev) :
    ∀ fuel i : ℕ, ∀ cmd : ErrForm, ∀ er : Bool, 1 ≤ fuel →
    (drainLoop dev i fuel cmd false er).errors = true := by
  intro fuel
  cases fuel with
  | zero => intro i cmd er h; omega
  | succ n =>
    intro i cmd er _
    obtain ⟨s, hdev, hne, h0, hp0⟩ := H i
    have hnoerr : noerrMatch cmd (pyStrip s) = false := by
      cases cmd <;> simp [noerrMatch, h0, hp0]
    simp only [drainLoop, hdev]
    rw [if_pos hne, if_pos hnoerr]
    simp only [Bool.false_and, Bool.false_eq_true, if_false]
    exact drainLoop_errors_mono dev n (i + 1) cmd false

/-- Helper: against an always-erroring instrument any call with at least
two remaining reads reports an error. -/
theorem drainLoop_errors_exact {dev : ℕ → ReadOutcome} (H : alwaysErrText dev) :
    ∀ fuel i : ℕ, ∀ cmd : ErrForm, ∀ le er : Bool, 2 ≤ fuel →
    (drainLoop dev i fuel cmd le er).errors = true := by
  intro fuel
  cases fuel with
  | zero => intro i cmd le er h; omega
  | succ n =>
    intro i cmd le er hf
    obtain ⟨s, hdev, hne, h0, hp0⟩ := H i
    have hnoerr : noerrMatch cmd (pyStrip s) = false := by
      cases cmd <;> simp [noerrMatch, h0, hp0]
    simp only [drainLoop, hdev]
    rw [if_pos hne, if_pos hnoerr]
    split
    · exact drainLoop_errors_notlegacy H n (i + 1) .new er (by omega)
    · exact drainLoop_errors_mono dev n (i + 1) cmd le

/-- C4, counterexample: a device that never returns the no-error
sentinel but answers with an empty string ends the drain after a single
read (with `hasErrors = true`), not after exactly `ErrorQueue` reads as
the claim states. -/
theorem C4_counterexample :
    (checkInstErrors (.num 0) (.num 0) true (fun _ => .ok "")).trace.length = 1
    ∧ (checkInstErrors (.num 0) (.num 0) true (fun _ => .ok "")).errors = true
    ∧ noerrMatch .old (pyStrip "") = false
    ∧ (1 : ℕ) ≠ ErrorQueue := by
  decide

/-- C4, amended: every `checkInstErrors` call issues at most `ErrorQueue`
(30) error-query reads; against a device that never returns the no-error
sentinel and always answers with nonempty error text (no I/O failures),
the loop terminates after exactly `ErrorQueue` reads and the call
returns `hasErrors = true`.  (A device that answers an empty string, or
raises a non-timeout I/O error, or times out in the Legacy form, ends
the drain early — still with `hasErrors = true`.) -/
theorem C4_drain_bounded :
    (∀ version versionLegacy : PyVersion, ∀ legacyError : Bool,
      ∀ dev : ℕ → ReadOutcome,
      (checkInstErrors version versionLegacy legacyError dev).trace.length ≤ ErrorQueue)
    ∧ (∀ version versionLegacy : PyVersion, ∀ legacyError : Bool,
      ∀ dev : ℕ → ReadOutcome, alwaysErrText dev →
      (checkInstErrors version versionLegacy legacyError dev).trace.length = ErrorQueue
      ∧ (checkInstErrors version versionLegacy legacyError dev).errors = true) := by
  constructor
  · intro v vl le dev
    unfold checkInstErrors
    cases hsel : selectCmd v vl le
    · exact drainLoop_trace_length_le dev ErrorQueue 0 .new le false
    · exact drainLoop_trace_length_le dev ErrorQueue 0 .old true false
  · intro v vl le dev H
    unfold checkInstErrors
    cases hsel : selectCmd v vl le
    · exact ⟨drainLoop_len_exact H ErrorQueue 0 .new le false,
        drainLoop_errors_exact H ErrorQueue 0 .new le false (by norm_num [ErrorQueue])⟩
    · exact ⟨drainLoop_len_exact H ErrorQueue 0 .old true false,
        drainLoop_errors_exact H ErrorQueue 0 .old true false (by norm_num [ErrorQueue])⟩

/-- Witness for `C4_drain_bounded`: a device that always answers
"-222,Data out of range" does exactly 30 reads and reports errors. -/
theorem C4_drain_bounded_witness :
    (checkInstErrors (.num 0) (.num 0) true
        (fun _ => .ok "-222,Data out of range")).trace.length = ErrorQueue
    ∧ (checkInstErrors (.num 0) (.num 0) true
        (fun _ => .ok "-222,Data out of range")).errors = true :=
  C4_drain_bounded.2 (.num 0) (.num 0) true (fun _ => .ok "-222,Data out of range")
    (fun _ => ⟨"-222,Data out of range", rfl, by decide, by decide, by decide⟩)

/-- C5, counterexample: in a Modern session (here one whose non-numeric
version makes `version > versionLegacy` hold) a modern-form timeout
switches the session to the legacy form — the second query uses the
Legacy command — but a purely numeric legacy response then switches it
back to the modern form, and the call ends with `_legacyError = false`:
the timeout-induced switch is not permanent. -/
theorem C5_counterexample :
    (checkInstErrors (.tup ["A"]) (.tup []) false c5dev).trace
      = [(.new, .timeout), (.old, .ok "10"), (.new, .ok "0,\"No error\"")]
    ∧ (checkInstErrors (.tup ["A"]) (.tup []) false c5dev).legacyError = false := by
  decide

/-- C5, amended: the session's error-dialect flag admits exactly these
automatic changes — at drain entry it is forced to the legacy form
unless it is already modern and the version exceeds the threshold; a
timeout on a modern-form query switches to the legacy form and command
for the rest of that call; a purely numeric non-sentinel legacy response
switches to the modern form and command and immediately continues with
the modern query.  No other step changes the flag: whenever the flag
differs at the end of a loop run from its start, the trace contains the
corresponding modern-form timeout (for modern→legacy) or numeric
legacy-form read (for legacy→modern).  Neither transition is permanent:
each can be reversed by the other (see the counterexample). -/
theorem C5_dialect_transitions :
    (∀ version versionLegacy : PyVersion, ∀ dev : ℕ → ReadOutcome,
      version.gt versionLegacy = true →
      checkInstErrors version versionLegacy false dev
        = drainLoop dev 0 ErrorQueue .new false false)
    ∧ (∀ version versionLegacy : PyVersion, ∀ le : Bool, ∀ dev : ℕ → ReadOutcome,
      le = true ∨ version.gt versionLegacy = false →
      checkInstErrors version versionLegacy le dev
        = drainLoop dev 0 ErrorQueue .old true false)
    ∧ (∀ dev : ℕ → ReadOutcome, ∀ i fuel : ℕ, ∀ le er : Bool,
      dev i = .timeout →
      drainLoop dev i (fuel + 1) .new le er
        = ⟨(drainLoop dev (i + 1) fuel .old true er).errors,
           (drainLoop dev (i + 1) fuel .old true er).legacyError,
           (.new, .timeout) :: (drainLoop dev (i + 1) fuel .old true er).trace⟩)
    ∧ (∀ dev : ℕ → ReadOutcome, ∀ i fuel : ℕ, ∀ cmd : ErrForm, ∀ er : Bool,
      ∀ s : String,
      dev i = .ok s → pyStrip s ≠ "" → noerrMatch cmd (pyStrip s) = false →
      pyIsDigit (pyStrip s) = true →
      drainLoop dev i (fuel + 1) cmd true er
        = ⟨(drainLoop dev (i + 1) fuel .new false er).errors,
           (drainLoop dev (i + 1) fuel .new false er).legacyError,
           (cmd, .ok s) :: (drainLoop dev (i + 1) fuel .new false er).trace⟩)
    ∧ (∀ dev : ℕ → ReadOutcome, ∀ i fuel : ℕ, ∀ cmd : ErrForm, ∀ le er : Bool,
      (cmd = .new → le = false) →
      ((drainLoop dev i fuel cmd le er).legacyError = le)
      ∨ ((drainLoop dev i fuel cmd le er).legacyError = true ∧ le = false
          ∧ (.new, .timeout) ∈ (drainLoop dev i fuel cmd le er).trace)
      ∨ ((drainLoop dev i fuel cmd le er).legacyError = false ∧ le = true
          ∧ ∃ s : String, ((.old : ErrForm), ReadOutcome.ok s)
              ∈ (drainLoop dev i fuel cmd le er).trace
            ∧ pyIsDigit (pyStrip s) = true)) := by
  refine ⟨?hentryNew, ?hentryOld, ?htimeout, ?hdigit, ?hcomplete⟩
  case hentryNew =>
    intro v vl dev hgt
    unfold checkInstErrors selectCmd
    rw [if_pos (by simp [hgt])]
  case hentryOld =>
    intro v vl le dev hsel
    unfold checkInstErrors selectCmd
    rw [if_neg (by rcases hsel with h | h <;> simp [h])]
  case htimeout =>
    intro dev i fuel le er hdev
    simp [drainLoop, hdev]
  case hdigit =>
    intro dev i fuel cmd er s hdev hne hnoerr hdig
    simp only [drainLoop, hdev]
    rw [if_pos hne, if_pos hnoerr]
    simp [hdig]
  case hcomplete =>
    intro dev i fuel
    induction fuel generalizing i with
    | zero =>
      intro cmd le er hinv
      exact Or.inl (by simp [drainLoop])
    | succ n ih =>
      intro cmd le er hinv
      cases hdev : dev i with
      | timeout =>
        simp only [drainLoop, hdev]
        split
        · next hcmd =>
          have hle : le = false := hinv hcmd
          cases hfin : (drainLoop dev (i + 1) n .old true er).legacyError
          · exact Or.inl (by simp [hfin, hle])
          · exact Or.inr (Or.inl (by simp [hfin, hle, hcmd]))
        · exact Or.inl (by simp)
      | ioerr =>
        simp only [drainLoop, hdev]
        exact Or.inl (by simp)
      | ok s =>
        simp only [drainLoop, hdev]
        split
        · split
          · split
            · next hswitch =>
              simp only [Bool.and_eq_true] at hswitch
              obtain ⟨hle, hdig⟩ := hswitch
              have hcmd : cmd = .old := by
                cases cmd
                · exact absurd (hinv rfl) (by simp [hle])
                · rfl
              cases hfin : (drainLoop dev (i + 1) n .new false er).legacyError
              · refine Or.inr (Or.inr ⟨by simp [hfin], hle, s, ?_, hdig⟩)
                rw [hcmd]
                exact List.mem_cons_self _ _
              · exact Or.inl (by simp [hfin, hle])
            · rcases ih (i + 1) cmd le true hinv with h | ⟨h1, h2, h3⟩ | ⟨h1, h2, s2, h3, h4⟩
              · exact Or.inl (by simpa using h)
              · exact Or.inr (Or.inl ⟨by simpa using h1, h2,
                  List.mem_cons_of_mem _ h3⟩)
              · exact Or.inr (Or.inr ⟨by simpa using h1, h2, s2,
                  List.mem_cons_of_mem _ h3, h4⟩)
          · exact Or.inl (by simp)
        · exact Or.inl (by simp)

/-- Witness for `C5_dialect_transitions`: entry selection and the two
in-loop transitions at concrete inputs. -/
theorem C5_dialect_transitions_witness :
    checkInstErrors (.tup ["A"]) (.tup []) false c5dev
      = drainLoop c5dev 0 ErrorQueue .new false false
    ∧ drainLoop c5dev 0 1 .new false false
      = ⟨(drainLoop c5dev 1 0 .old true false).errors,
         (drainLoop c5dev 1 0 .old true false).legacyError,
         (.new, .timeout) :: (drainLoop c5dev 1 0 .old true false).trace⟩
    ∧ drainLoop c5dev 1 1 .old true false
      = ⟨(drainLoop c5dev 2 0 .new false false).errors,
         (drainLoop c5dev 2 0 .new false false).legacyError,
         (.old, .ok "10") :: (drainLoop c5dev 2 0 .new false false).trace⟩ :=
  ⟨C5_dialect_transitions.1 (.tup ["A"]) (.tup []) c5dev (by decide),
   C5_dialect_transitions.2.2.1 c5dev 0 0 false false (by decide),
   C5_dialect_transitions.2.2.2.1 c5dev 1 0 .old false "10" (by decide) (by decide)
     (by decide) (by decide)⟩

/-- Helper: `justifiedFrom` is monotone in its context. -/
theorem justifiedFrom_mono : ∀ tr : List (ErrForm × ReadOutcome), ∀ ctx ctx' : Prop,
    (ctx → ctx') → justifiedFrom ctx tr → justifiedFrom ctx' tr := by
  intro tr
  induction tr with
  | nil => intro ctx ctx' h hj; trivial
  | cons r rest ih =>
    intro ctx ctx' h hj
    exact ⟨fun hn => h (hj.1 hn), ih _ _ (fun hc => hc.imp h id) hj.2⟩

/-- Helper: justification concatenates: a trace followed by one
justified from the extended context is justified as a whole. -/
theorem justifiedFrom_append : ∀ a b : List (ErrForm × ReadOutcome), ∀ ctx : Prop,
    justifiedFrom ctx a → justifiedFrom (ctx ∨ digitIn a) b →
    justifiedFrom ctx (a ++ b) := by
  intro a
  induction a with
  | nil =>
    intro b ctx _ hb
    exact justifiedFrom_mono b _ _
      (fun h => h.elim id (fun hd => absurd hd (by simp [digitIn]))) hb
  | cons r rest ih =>
    intro b ctx ha hb
    refine ⟨ha.1, ih b (ctx ∨ okDigitRead r) ha.2 ?_⟩
    refine justifiedFrom_mono b _ _ ?_ hb
    rintro (hc | hd)
    · exact Or.inl (Or.inl hc)
    · rcases hd with ⟨x, hx, hok⟩
      rcases List.mem_cons.mp hx with rfl | hx2
      · exact Or.inl (Or.inr hok)
      · exact Or.inr ⟨x, hx2, hok⟩

/-- Helper: within one drain-loop run, every New-form read is justified
by the context or an earlier Legacy digit read of the same run, and the
flag can end modern only when the context held or such a read occurred. -/
theorem drainLoop_justified : ∀ fuel : ℕ, ∀ dev : ℕ → ReadOutcome, ∀ i : ℕ,
    ∀ cmd : ErrForm, ∀ le er : Bool, ∀ ctx : Prop,
    (le = false → ctx) → (cmd = .new → ctx) →
    justifiedFrom ctx (drainLoop dev i fuel cmd le er).trace
    ∧ ((drainLoop dev i fuel cmd le er).legacyError = false
        → ctx ∨ digitIn (drainLoop dev i fuel cmd le er).trace) := by
  intro fuel
  induction fuel with
  | zero =>
    intro dev i cmd le er ctx hle hcmd
    exact ⟨trivial, fun hf => Or.inl (hle hf)⟩
  | succ n ih =>
    intro dev i cmd le er ctx hle hcmd
    cases hdev : dev i with
    | timeout =>
      simp only [drainLoop, hdev]
      split
      · next hc =>
        have hrec := ih dev (i + 1) .old true er (ctx ∨ okDigitRead (cmd, .timeout))
          (by simp) (by simp)
        constructor
        · exact ⟨fun hn => hcmd hn, hrec.1⟩
        · intro hf
          rcases hrec.2 (by simpa using hf) with (hc2 | hok) | ⟨x, hx, hok⟩
          · exact Or.inl hc2
          · exact Or.inr ⟨(cmd, .timeout), List.mem_cons_self _ _, hok⟩
          · exact Or.inr ⟨x, List.mem_cons_of_mem _ hx, hok⟩
      · constructor
        · exact ⟨fun hn => hcmd hn, trivial⟩
        · intro hf
          exact Or.inl (hle (by simpa using hf))
    | ioerr =>
      simp only [drainLoop, hdev]
      constructor
      · exact ⟨fun hn => hcmd hn, trivial⟩
      · intro hf
        exact Or.inl (hle (by simpa using hf))
    | ok s =>
      simp only [drainLoop, hdev]
      split
      · split
        · split
          · next hswitch =>
            simp only [Bool.and_eq_true] at hswitch
            obtain ⟨hleT, hdig⟩ := hswitch
            have hctx2 : ctx ∨ okDigitRead (cmd, .ok s) := by
              cases hc : cmd
              · exact Or.inl (hcmd hc)
              · exact Or.inr (by simpa [okDigitRead] using hdig)
            have hrec := ih dev (i + 1) .new false er (ctx ∨ okDigitRead (cmd, .ok s))
              (fun _ => hctx2) (fun _ => hctx2)
            constructor
            · exact ⟨fun hn => hcmd hn, hrec.1⟩
            · intro hf
              rcases hrec.2 (by simpa using hf) with (hc2 | hok) | ⟨x, hx, hok⟩
              · exact Or.inl hc2
              · exact Or.inr ⟨(cmd, .ok s), List.mem_cons_self _ _, hok⟩
              · exact Or.inr ⟨x, List.mem_cons_of_mem _ hx, hok⟩
          · have hrec := ih dev (i + 1) cmd le true ctx hle hcmd
            constructor
            · exact ⟨fun hn => hcmd hn,
                justifiedFrom_mono _ _ _ Or.inl hrec.1⟩
            · intro hf
              rcases hrec.2 (by simpa using hf) with hc2 | ⟨x, hx, hok⟩
              · exact Or.inl hc2
              · exact Or.inr ⟨x, List.mem_cons_of_mem _ hx, hok⟩
        · constructor
          · exact ⟨fun hn => hcmd hn, trivial⟩
          · intro hf
            exact Or.inl (hle (by simpa using hf))
      · constructor
        · exact ⟨fun hn => hcmd hn, trivial⟩
        · intro hf
          exact Or.inl (hle (by simpa using hf))

/-- Helper: one `checkInstErrors` call is justified: every New-form read
it issues was licensed either by entering with the flag already modern
(context) or by an earlier Legacy digit read of the same call. -/
theorem checkInstErrors_justified (v vl : PyVersion) (flag : Bool)
    (d : ℕ → ReadOutcome) (ctx : Prop) (hflag : flag = false → ctx) :
    justifiedFrom ctx (checkInstErrors v vl flag d).trace
    ∧ ((checkInstErrors v vl flag d).legacyError = false
        → ctx ∨ digitIn (checkInstErrors v vl flag d).trace) := by
  unfold checkInstErrors
  cases hsel : selectCmd v vl flag
  · have hflag0 : flag = false := by
      unfold selectCmd at hsel
      split at hsel
      · next hcond =>
        simp only [Bool.and_eq_true] at hcond
        cases flag
        · rfl
        · simp at hcond
      · simp at hsel
    exact drainLoop_justified ErrorQueue d 0 .new flag false ctx hflag
      (fun _ => hflag hflag0)
  · exact drainLoop_justified ErrorQueue d 0 .old true false ctx
      (by simp) (by simp)

/-- Helper: a whole session of drain calls starting from any flag is
justified, and ends modern only with a digit-read (or prior context). -/
theorem runDrains_justified : ∀ devs : List (ℕ → ReadOutcome), ∀ v vl : PyVersion,
    ∀ flag : Bool, ∀ ctx : Prop, (flag = false → ctx) →
    justifiedFrom ctx (runDrains v vl devs flag).1
    ∧ ((runDrains v vl devs flag).2 = false
        → ctx ∨ digitIn (runDrains v vl devs flag).1) := by
  intro devs
  induction devs with
  | nil =>
    intro v vl flag ctx hf
    exact ⟨trivial, fun h => Or.inl (hf h)⟩
  | cons d ds ih =>
    intro v vl flag ctx hflag
    obtain ⟨hj1, hf1⟩ := checkInstErrors_justified v vl flag d ctx hflag
    have hrest := ih v vl (checkInstErrors v vl flag d).legacyError
      (ctx ∨ digitIn (checkInstErrors v vl flag d).trace) hf1
    constructor
    · exact justifiedFrom_append _ _ _ hj1 hrest.1
    · intro hf
      rcases hrest.2 (by simpa [runDrains] using hf) with (hc | hd) | ⟨x, hx, hok⟩
      · exact Or.inl hc
      · rcases hd with ⟨x, hx, hok⟩
        exact Or.inr ⟨x, by simpa [runDrains] using List.mem_append_left _ hx, hok⟩
      · exact Or.inr ⟨x, by simpa [runDrains] using List.mem_append_right _ hx, hok⟩

/-- Helper: the first read of a drain-loop run uses the command form the
run started with. -/
theorem drainLoop_head (dev : ℕ → ReadOutcome) (i fuel : ℕ) (cmd : ErrForm)
    (le er : Bool) :
    (drainLoop dev i (fuel + 1) cmd le er).trace.head? = some (cmd, dev i) := by
  cases hdev : dev i with
  | timeout =>
    simp only [drainLoop, hdev]
    split <;> rfl
  | ioerr => simp [drainLoop, hdev]
  | ok s =>
    simp only [drainLoop, hdev]
    split
    · split
      · split <;> rfl
      · rfl
    · rfl

/-- C10: a fresh session starts with `_legacyError = true`;
`checkInstErrors` selects the modern error form exactly when the flag is
already false and the version exceeds the legacy threshold; hence the
first read of a fresh session's first drain uses the Legacy command
regardless of firmware version, and in any session every modern-form
read is preceded by a legacy-form read that returned a purely numeric
string. -/
theorem C10_first_drain_legacy :
    initLegacyError = true
    ∧ (errCmdStr .old = "SYSTem:ERRor?" ∧ errCmdStr .new = "SYSTem:ERRor? STRing")
    ∧ (∀ version versionLegacy : PyVersion, ∀ le : Bool,
        selectCmd version versionLegacy le = .new
          ↔ (le = false ∧ version.gt versionLegacy = true))
    ∧ (∀ version versionLegacy : PyVersion, ∀ dev : ℕ → ReadOutcome,
        (checkInstErrors version versionLegacy initLegacyError dev).trace.head?
          = some (.old, dev 0))
    ∧ (∀ version versionLegacy : PyVersion, ∀ devs : List (ℕ → ReadOutcome),
        justifiedFrom False (runDrains version versionLegacy devs initLegacyError).1) := by
  refine ⟨rfl, ⟨rfl, rfl⟩, ?hsel, ?hfirst, ?hjust⟩
  case hsel =>
    intro v vl le
    constructor
    · intro h
      unfold selectCmd at h
      split at h
      · next hc =>
        simp only [Bool.and_eq_true] at hc
        refine ⟨?_, hc.2⟩
        cases le
        · rfl
        · simp at hc
      · simp at h
    · rintro ⟨hle, hgt⟩
      unfold selectCmd
      rw [if_pos (by simp [hle, hgt])]
  case hfirst =>
    intro v vl dev
    have hsel : selectCmd v vl initLegacyError = .old := rfl
    unfold checkInstErrors
    rw [hsel]
    exact drainLoop_head dev 0 29 .old true false
  case hjust =>
    intro v vl devs
    exact (runDrains_justified devs v vl initLegacyError False (by simp [initLegacyError])).1

/-! ## Transport primitives (`SCPI._instQuery` etc., scpi.py:130-402) -/

/-- A transport operation either succeeds with a value or raises
`pyvisa.VisaIOError`. -/
inductive TransportResult (α : Type) where
  | ok (a : α)
  | visaErr
  deriving DecidableEq, Repr

/-- What the caller of one of the `_inst...` primitives observes:
`drained` records whether an error-queue drain ran (it runs exactly when
`checkErrors` is set). -/
inductive CallOutcome (α : Type) where
  | ok (a : α) (drained : Bool)
  | reraise (drained : Bool)
  | exited (code : ℕ) (drained : Bool)
  deriving DecidableEq, Repr

/-- Model of Python `str.rstrip('\n')`: drop trailing newlines (the
`read_strip` of the Keysight classes). -/
def pyRstripNl (s : String) : String :=
  String.mk ((s.toList.reverse.dropWhile (fun c => c = '\n')).reverse)

/-- Model of `SCPI._instQuery` (scpi.py:130-147): on success the
response is returned stripped of the read-strip characters, after a
drain when `checkErrors`; on a `VisaIOError` one drain is attempted
(when `checkErrors`) and the same error is re-raised to the caller —
the operation is not retried. -/
def instQuery (transport : TransportResult String) (checkErrors : Bool) :
    CallOutcome String :=
  match transport with
  | .visaErr => .reraise checkErrors
  | .ok s => .ok (pyRstripNl s) checkErrors

/-- Model of `SCPI._instWrite` (scpi.py:152-169): same failure handling
as `_instQuery`. -/
def instWrite (transport : TransportResult Unit) (checkErrors : Bool) :
    CallOutcome Unit :=
  match transport with
  | .visaErr => .reraise checkErrors
  | .ok u => .ok u checkErrors

/-- Model of `SCPI._instQueryIEEEBlock` (scpi.py:319-334): on a
`VisaIOError` it drains (when `checkErrors`), prints a message and calls
`exit(1)`, terminating the process instead of re-raising. -/
def instQueryIEEEBlock (transport : TransportResult (List ℕ)) (checkErrors : Bool) :
    CallOutcome (List ℕ) :=
  match transport with
  | .visaErr => .exited 1 checkErrors
  | .ok b => .ok b checkErrors

/-- Model of `SCPI._instQueryNumbers` (scpi.py:340-355): on a
`VisaIOError` it drains (when `checkErrors`), prints and calls
`exit(1)`. -/
def instQueryNumbers (transport : TransportResult (List ℚ)) (checkErrors : Bool) :
    CallOutcome (List ℚ) :=
  match transport with
  | .visaErr => .exited 1 checkErrors
  | .ok vs => .ok vs checkErrors

/-- Model of `SCPI._instWriteIEEEBlock` (scpi.py:361-384): on a
`VisaIOError` it drains (when `checkErrors`), prints and calls
`exit(1)`. -/
def instWriteIEEEBlock (transport : TransportResult Unit) (checkErrors : Bool) :
    CallOutcome Unit :=
  match transport with
  | .visaErr => .exited 1 checkErrors
  | .ok u => .ok u checkErrors

/-- C9, counterexample: a VISA I/O error during a binary-block query is
not re-raised to the caller — `_instQueryIEEEBlock` terminates the
process via `exit(1)` (after the drain), contradicting the claim for
binary-block queries. -/
theorem C9_counterexample :
    instQueryIEEEBlock .visaErr true = .exited 1 true
    ∧ instQueryIEEEBlock .visaErr true ≠ .reraise true := by
  exact ⟨rfl, by decide⟩

/-- C9, amended: on a VISA I/O error, `_instQuery` and `_instWrite`
perform one error-queue drain (exactly when `checkErrors` is enabled)
and re-raise the same error without retrying; `_instQueryIEEEBlock`,
`_instQueryNumbers` and `_instWriteIEEEBlock` perform the drain, print,
and terminate the process via `exit(1)` instead of re-raising. -/
theorem C9_transport_error_paths :
    ∀ c : Bool,
    instQuery .visaErr c = .reraise c
    ∧ instWrite .visaErr c = .reraise c
    ∧ instQueryIEEEBlock .visaErr c = .exited 1 c
    ∧ instQueryNumbers .visaErr c = .exited 1 c
    ∧ instWriteIEEEBlock .visaErr c = .exited 1 c := by
  intro c
  exact ⟨rfl, rfl, rfl, rfl, rfl⟩

/-! ## `waveformData` argument validation (keysight.py:762-791) -/

/-- The channel argument of `waveformData`: absent, a string, or a list
(which the function rejects). -/
inductive ChanArg where
  | none
  | str (s : String)
  | list (ss : List String)
  deriving DecidableEq, Repr

/-- Outcome of `waveformData` up to its dispatch to the download
routines. -/
inductive WfOutcome where
  | valueError (msg : String)
  | dispatchNew (channel : String)
  | dispatchLegacy (channel : String)
  deriving DecidableEq, Repr

/-- Model of the argument handling and validation prefix of
`Keysight.waveformData` (keysight.py:762-791), paired with the list of
transport commands the function has issued when it resolves: a string
argument becomes the current channel; a list argument raises
`ValueError`; a current channel outside `chanAllValidList` raises
`ValueError`; both raises happen before any `_instWrite`/`_instQuery`,
so the issued-command list is empty there.  On success the function
dispatches on `_version > _versionLegacy` to `_waveformDataNew` or
`_waveformDataLegacy` (whose own commands follow the dispatch). -/
def waveformData (chanAllValidList : List String) (currChannel : String)
    (channel : ChanArg) (version versionLegacy : PyVersion) :
    WfOutcome × List String :=
  match channel with
  | .list _ => (.valueError "Channel cannot be a list for WAVEFORM!", [])
  | .str s =>
    if s ∈ chanAllValidList then
      if version.gt versionLegacy then (.dispatchNew s, []) else (.dispatchLegacy s, [])
    else
      (.valueError ("INVALID Channel Value for WAVEFORM: " ++ s ++ "  SKIPPING!"), [])
  | .none =>
    if currChannel ∈ chanAllValidList then
      if version.gt versionLegacy then (.dispatchNew currChannel, [])
      else (.dispatchLegacy currChannel, [])
    else
      (.valueError ("INVALID Channel Value for WAVEFORM: " ++ currChannel
        ++ "  SKIPPING!"), [])

/-- C3: for every channel identifier outside the resolved capability
model's `chanAllValidList` (and for every list-valued channel argument),
`waveformData` raises `ValueError` with zero transport commands issued. -/
theorem C3_invalid_channel_no_commands :
    (∀ valid : List String, ∀ curr s : String, ∀ v vl : PyVersion,
      s ∉ valid →
      waveformData valid curr (.str s) v vl
        = (.valueError ("INVALID Channel Value for WAVEFORM: " ++ s ++ "  SKIPPING!"), []))
    ∧ (∀ valid : List String, ∀ curr : String, ∀ ss : List String, ∀ v vl : PyVersion,
      waveformData valid curr (.list ss) v vl
        = (.valueError "Channel cannot be a list for WAVEFORM!", [])) := by
  constructor
  · intro valid curr s v vl h
    simp [waveformData, h]
  · intro valid curr ss v vl
    rfl

/-- Witness for `C3_invalid_channel_no_commands`: channel "5" against the
4-channel DSOX capability list. -/
theorem C3_invalid_channel_no_commands_witness :
    waveformData (keysightChanAllValidList 4) "CHAN1" (.str "5") (.num 0) (.num 0)
      = (.valueError ("INVALID Channel Value for WAVEFORM: " ++ "5" ++ "  SKIPPING!"), []) :=
  C3_invalid_channel_no_commands.1 (keysightChanAllValidList 4) "CHAN1" "5"
    (.num 0) (.num 0) (by decide)

end OscopeSpec
